import Mathlib

/-!
Verification of the per-tick simulation core of the fetch game: the
entity/component data model, the throw charge-and-release state machine,
the ball's friction/bounce physics, and the dog's behavioral state machine.

Modelling conventions:
* The world holds exactly one player, one dog and one ball (as created by
  the bootstrap in main.ts), so the component arrays indexed by entity id
  are flattened into one record field per component attribute.
* JavaScript number arithmetic is modelled by exact real arithmetic;
  Math.sqrt is Real.sqrt, Math.pow on the positive friction base is
  Real.rpow, Math.abs is abs, Math.min/max are min/max.
* Math.random() * 2π in calculateWaitPosition is modelled by an explicit
  angle parameter threaded into the richer dog-AI system.
* Entity ids follow creation order (player 1, dog 2, ball 3); heldBy = 0
  means no holder, as in the source.
-/

set_option maxHeartbeats 1000000

namespace FetchTs

/-- States of the ball, mirroring BallState in components.ts
(0 = HeldByPlayer, 1 = InFlight, 2 = OnGround, 3 = HeldByDog). -/
inductive BallState where
  | HeldByPlayer
  | InFlight
  | OnGround
  | HeldByDog
deriving DecidableEq, Repr

/-- States of the dog, mirroring DogState in components.ts
(0 = Idle, 1 = ChasingBall, 2 = ReturningToPlayer) plus the richer
variant's BackingOff state. The three-state system never produces or
matches BackingOff (its switch falls through, leaving the world
unchanged, exactly as a JS switch with no matching case). -/
inductive DogState where
  | Idle
  | ChasingBall
  | ReturningToPlayer
  | BackingOff
deriving DecidableEq, Repr

/-- Entity id of the player (first entity created in main.ts). -/
def playerEid : ℕ := 1
/-- Entity id of the dog (second entity created in main.ts). -/
def dogEid : ℕ := 2
/-- Entity id of the ball (third entity created in main.ts). -/
def ballEid : ℕ := 3

/-- The component state of the one player, one dog and one ball:
Position.x/y, Player.speed, ThrowCharge.{power,targetX,targetY,active},
DogAI.{state,speed,excited,waitX,waitY}, Ball.{state,friction,heldBy}
and the ball's Position and Velocity, flattened from the per-entity
component arrays of components.ts. -/
structure World where
  playerX : ℝ
  playerY : ℝ
  playerSpeed : ℝ
  chargePower : ℝ
  chargeTargetX : ℝ
  chargeTargetY : ℝ
  chargeActive : Bool
  dogState : DogState
  dogSpeed : ℝ
  dogX : ℝ
  dogY : ℝ
  dogExcited : Bool
  dogWaitX : ℝ
  dogWaitY : ℝ
  ballState : BallState
  ballFriction : ℝ
  ballHeldBy : ℕ
  ballX : ℝ
  ballY : ℝ
  ballVelX : ℝ
  ballVelY : ℝ

/-- Per-frame input snapshot from input.ts: pointer position, level and
edge-triggered pointer state, and the derived movement key predicates
isMovingUp/Down/Left/Right. -/
structure Input where
  mouseX : ℝ
  mouseY : ℝ
  mouseDown : Bool
  mousePressed : Bool
  mouseReleased : Bool
  movingUp : Bool
  movingDown : Bool
  movingLeft : Bool
  movingRight : Bool

/-- MIN_THROW_POWER in throw.ts. -/
noncomputable def minThrowPower : ℝ := 200
/-- MAX_THROW_POWER in throw.ts. -/
noncomputable def maxThrowPower : ℝ := 800
/-- CHARGE_RATE in throw.ts (full charge in about 0.67 s). -/
noncomputable def chargeRate : ℝ := 1.5
/-- PICKUP_DISTANCE in dogAI.ts. -/
noncomputable def pickupDistance : ℝ := 30
/-- DELIVERY_DISTANCE in dogAI.ts. -/
noncomputable def deliveryDistance : ℝ := 40
/-- WAIT_DISTANCE in the richer dogAI variant. -/
noncomputable def waitDistance : ℝ := 120
/-- WAIT_THRESHOLD in the richer dogAI variant. -/
noncomputable def waitThreshold : ℝ := 10
/-- STOP_THRESHOLD in ball.ts. -/
noncomputable def stopThreshold : ℝ := 10
/-- Play-field width from main.ts. -/
noncomputable def worldWidth : ℝ := 800
/-- Play-field height from main.ts. -/
noncomputable def worldHeight : ℝ := 600

/-- playerMovementSystem of movement.ts: build the intent vector from the
movement keys, normalize a diagonal intent to unit length, and advance the
player's position by intent * speed * dt. -/
noncomputable def playerMovementSystem (w : World) (i : Input) (dt : ℝ) : World :=
  let dx0 : ℝ := (if i.movingLeft then (-1 : ℝ) else 0) + (if i.movingRight then (1 : ℝ) else 0)
  let dy0 : ℝ := (if i.movingUp then (-1 : ℝ) else 0) + (if i.movingDown then (1 : ℝ) else 0)
  let len := Real.sqrt (dx0 * dx0 + dy0 * dy0)
  let dx := if dx0 ≠ 0 ∧ dy0 ≠ 0 then dx0 / len else dx0
  let dy := if dx0 ≠ 0 ∧ dy0 ≠ 0 then dy0 / len else dy0
  { w with
    playerX := w.playerX + dx * w.playerSpeed * dt
    playerY := w.playerY + dy * w.playerSpeed * dt }

/-- Math.max(margin, Math.min(hi, v)): the clamp used by boundsSystem and
calculateWaitPosition. -/
noncomputable def clampTo (lo hi v : ℝ) : ℝ := max lo (min hi v)

/-- boundsSystem of movement.ts: clamp every entity carrying Position
(player, dog and ball) to the [margin, dimension - margin] box. -/
noncomputable def boundsSystem (w : World) (width height margin : ℝ) : World :=
  { w with
    playerX := clampTo margin (width - margin) w.playerX
    playerY := clampTo margin (height - margin) w.playerY
    dogX := clampTo margin (width - margin) w.dogX
    dogY := clampTo margin (height - margin) w.dogY
    ballX := clampTo margin (width - margin) w.ballX
    ballY := clampTo margin (height - margin) w.ballY }

/-- throwSystem of throw.ts: update the aim target to the pointer, start
charging on a press while the ball is held, grow the charge while the
pointer is down, release the throw on the release edge (imparting
velocity only when the aim direction has positive length), and finally
pin the ball to the player plus the (25, 0) hand offset whenever the
ball state read at the top of the system was HeldByPlayer. -/
noncomputable def throwSystem (w : World) (i : Input) (dt : ℝ) : World :=
  let playerX := w.playerX
  let playerY := w.playerY
  let w1 := { w with chargeTargetX := i.mouseX, chargeTargetY := i.mouseY }
  let ballState := w1.ballState
  let w2 :=
    if i.mousePressed ∧ ballState = BallState.HeldByPlayer then
      { w1 with chargeActive := true, chargePower := 0, dogExcited := true }
    else w1
  let w3 :=
    if w2.chargeActive ∧ i.mouseDown then
      { w2 with chargePower := min 1 (w2.chargePower + chargeRate * dt) }
    else w2
  let w4 :=
    if i.mouseReleased ∧ w3.chargeActive then
      let power := w3.chargePower
      let dx := w3.chargeTargetX - playerX
      let dy := w3.chargeTargetY - playerY
      let dist := Real.sqrt (dx * dx + dy * dy)
      let w5 :=
        if dist > 0 then
          let throwPower := minThrowPower + power * (maxThrowPower - minThrowPower)
          { w3 with
            ballVelX := dx / dist * throwPower
            ballVelY := dy / dist * throwPower
            ballState := BallState.InFlight
            ballHeldBy := 0 }
        else w3
      { w5 with chargeActive := false, chargePower := 0, dogExcited := false }
    else w3
  if ballState = BallState.HeldByPlayer then
    { w4 with ballX := playerX + 25, ballY := playerY }
  else w4

/-- Velocity decay of ball.ts, x axis: Velocity.x * Math.pow(friction, dt * 60). -/
noncomputable def decayedVelX (w : World) (dt : ℝ) : ℝ :=
  w.ballVelX * w.ballFriction ^ (dt * 60)

/-- Velocity decay of ball.ts, y axis. -/
noncomputable def decayedVelY (w : World) (dt : ℝ) : ℝ :=
  w.ballVelY * w.ballFriction ^ (dt * 60)

/-- Position integration of ball.ts, x axis: Position.x plus the decayed
velocity times dt. -/
noncomputable def movedBallX (w : World) (dt : ℝ) : ℝ :=
  w.ballX + decayedVelX w dt * dt

/-- Position integration of ball.ts, y axis. -/
noncomputable def movedBallY (w : World) (dt : ℝ) : ℝ :=
  w.ballY + decayedVelY w dt * dt

/-- Wall bounce of ball.ts on one axis: crossing the low margin clamps the
position there and sets the velocity to +|v| * 0.7; crossing the high
margin clamps and sets -|v| * 0.7; otherwise both pass through. -/
noncomputable def bounceAxis (p v lo hi : ℝ) : ℝ × ℝ :=
  if p < lo then (lo, |v| * 0.7)
  else if p > hi then (hi, -|v| * 0.7)
  else (p, v)

/-- Position and velocity on the x axis after the wall-bounce step of
ball.ts (margin 15 against the left and right walls). -/
noncomputable def postBounceX (w : World) (dt width : ℝ) : ℝ × ℝ :=
  bounceAxis (movedBallX w dt) (decayedVelX w dt) 15 (width - 15)

/-- Position and velocity on the y axis after the wall-bounce step of
ball.ts (margin 15 against the top and bottom walls). -/
noncomputable def postBounceY (w : World) (dt height : ℝ) : ℝ × ℝ :=
  bounceAxis (movedBallY w dt) (decayedVelY w dt) 15 (height - 15)

/-- Euclidean speed after the bounce step, tested against STOP_THRESHOLD
by ball.ts. -/
noncomputable def postBounceSpeed (w : World) (dt width height : ℝ) : ℝ :=
  Real.sqrt ((postBounceX w dt width).2 ^ 2 + (postBounceY w dt height).2 ^ 2)

/-- ballPhysicsSystem of ball.ts: for a ball InFlight, decay the velocity
by friction ^ (dt * 60), advance the position, bounce off the four walls
(margin 15, restitution 0.7, independently per axis), and if the
resulting speed is below STOP_THRESHOLD zero the velocity and transition
to OnGround. -/
noncomputable def ballPhysicsSystem (w : World) (dt width height : ℝ) : World :=
  if w.ballState = BallState.InFlight then
    if postBounceSpeed w dt width height < stopThreshold then
      { w with ballX := (postBounceX w dt width).1, ballY := (postBounceY w dt height).1,
               ballVelX := 0, ballVelY := 0, ballState := BallState.OnGround }
    else
      { w with ballX := (postBounceX w dt width).1, ballY := (postBounceY w dt height).1,
               ballVelX := (postBounceX w dt width).2, ballVelY := (postBounceY w dt height).2 }
  else w

/-- moveToward of dogAI.ts: step a point toward a target at the given
speed, snapping an axis to the target instead of overshooting; a move
happens only when the distance exceeds 1. Returns the new point and the
pre-move distance (the richer variant's return value). -/
noncomputable def moveToward (x y targetX targetY speed dt : ℝ) : ℝ × ℝ × ℝ :=
  let dx := targetX - x
  let dy := targetY - y
  let dist := Real.sqrt (dx * dx + dy * dy)
  if dist > 1 then
    let moveX := dx / dist * speed * dt
    let moveY := dy / dist * speed * dt
    let nx := if |moveX| > |dx| then targetX else x + moveX
    let ny := if |moveY| > |dy| then targetY else y + moveY
    (nx, ny, dist)
  else (x, y, dist)

/-- dogAISystem of dogAI.ts (three-state variant): Idle starts chasing a
free ball; ChasingBall moves to the ball, picks it up within
PICKUP_DISTANCE when the ball is free, and goes Idle if the ball is back
with the player; ReturningToPlayer moves to the player, pins a HeldByDog
ball to the dog plus the (15, 0) carry offset, and delivers within
DELIVERY_DISTANCE. Distances are measured from the dog position read
before the move, as in the source. -/
noncomputable def dogAISystem (w : World) (dt : ℝ) : World :=
  let playerX := w.playerX
  let playerY := w.playerY
  let ballX := w.ballX
  let ballY := w.ballY
  let ballState := w.ballState
  let speed := w.dogSpeed
  let dogX := w.dogX
  let dogY := w.dogY
  match w.dogState with
  | DogState.Idle =>
      if ballState = BallState.InFlight ∨ ballState = BallState.OnGround then
        { w with dogState := DogState.ChasingBall }
      else w
  | DogState.ChasingBall =>
      let m := moveToward dogX dogY ballX ballY speed dt
      let w1 := { w with dogX := m.1, dogY := m.2.1 }
      let distToBall := Real.sqrt ((dogX - ballX) ^ 2 + (dogY - ballY) ^ 2)
      let w2 :=
        if distToBall < pickupDistance ∧
            (ballState = BallState.InFlight ∨ ballState = BallState.OnGround) then
          { w1 with ballState := BallState.HeldByDog, ballHeldBy := dogEid,
                    dogState := DogState.ReturningToPlayer }
        else w1
      if ballState = BallState.HeldByPlayer then
        { w2 with dogState := DogState.Idle }
      else w2
  | DogState.ReturningToPlayer =>
      let m := moveToward dogX dogY playerX playerY speed dt
      let w1 := { w with dogX := m.1, dogY := m.2.1 }
      let w2 :=
        if ballState = BallState.HeldByDog then
          { w1 with ballX := w1.dogX + 15, ballY := w1.dogY }
        else w1
      let distToPlayer := Real.sqrt ((dogX - playerX) ^ 2 + (dogY - playerY) ^ 2)
      if distToPlayer < deliveryDistance then
        { w2 with ballState := BallState.HeldByPlayer, ballHeldBy := playerEid,
                  dogState := DogState.Idle }
      else w2
  | DogState.BackingOff => w

/-- calculateWaitPosition of the richer dogAI variant: the unit vector
from player to dog (a random direction, modelled by the angle argument,
when the dog is within distance 1 of the player) scaled by WAIT_DISTANCE
from the player and clamped into the 800 x 600 field minus a margin
of 30. -/
noncomputable def calculateWaitPosition
    (playerX playerY dogX dogY angle width height : ℝ) : ℝ × ℝ :=
  let dx0 := dogX - playerX
  let dy0 := dogY - playerY
  let dist := Real.sqrt (dx0 * dx0 + dy0 * dy0)
  let dx := if dist < 1 then Real.cos angle else dx0 / dist
  let dy := if dist < 1 then Real.sin angle else dy0 / dist
  let waitX := playerX + dx * waitDistance
  let waitY := playerY + dy * waitDistance
  (clampTo 30 (width - 30) waitX, clampTo 30 (height - 30) waitY)

/-- dogAISystem of the richer four-state variant: like the three-state
system, but a delivery (or seeing the ball back with the player while
chasing) computes a wait position and transitions to BackingOff, which
moves toward the wait position at 0.7 x speed, interrupts back to
ChasingBall when the ball becomes free, and goes Idle within
WAIT_THRESHOLD of the wait position. The angle argument stands for the
Math.random() direction used when the dog sits exactly on the player. -/
noncomputable def dogAISystemRich (w : World) (dt angle : ℝ) : World :=
  let playerX := w.playerX
  let playerY := w.playerY
  let ballX := w.ballX
  let ballY := w.ballY
  let ballState := w.ballState
  let speed := w.dogSpeed
  let dogX := w.dogX
  let dogY := w.dogY
  match w.dogState with
  | DogState.Idle =>
      if ballState = BallState.InFlight ∨ ballState = BallState.OnGround then
        { w with dogState := DogState.ChasingBall }
      else w
  | DogState.ChasingBall =>
      let m := moveToward dogX dogY ballX ballY speed dt
      let w1 := { w with dogX := m.1, dogY := m.2.1 }
      let distToBall := Real.sqrt ((dogX - ballX) ^ 2 + (dogY - ballY) ^ 2)
      let w2 :=
        if distToBall < pickupDistance ∧
            (ballState = BallState.InFlight ∨ ballState = BallState.OnGround) then
          { w1 with ballState := BallState.HeldByDog, ballHeldBy := dogEid,
                    dogState := DogState.ReturningToPlayer }
        else w1
      if ballState = BallState.HeldByPlayer then
        let wp := calculateWaitPosition playerX playerY dogX dogY angle 800 600
        { w2 with dogWaitX := wp.1, dogWaitY := wp.2, dogState := DogState.BackingOff }
      else w2
  | DogState.ReturningToPlayer =>
      let m := moveToward dogX dogY playerX playerY speed dt
      let w1 := { w with dogX := m.1, dogY := m.2.1 }
      let w2 :=
        if ballState = BallState.HeldByDog then
          { w1 with ballX := w1.dogX + 15, ballY := w1.dogY }
        else w1
      let distToPlayer := Real.sqrt ((dogX - playerX) ^ 2 + (dogY - playerY) ^ 2)
      if distToPlayer < deliveryDistance then
        let wp := calculateWaitPosition playerX playerY dogX dogY angle 800 600
        { w2 with ballState := BallState.HeldByPlayer, ballHeldBy := playerEid,
                  dogWaitX := wp.1, dogWaitY := wp.2, dogState := DogState.BackingOff }
      else w2
  | DogState.BackingOff =>
      let waitX := w.dogWaitX
      let waitY := w.dogWaitY
      let m := moveToward dogX dogY waitX waitY (speed * 0.7) dt
      let w1 := { w with dogX := m.1, dogY := m.2.1 }
      let distToWait := m.2.2
      if ballState = BallState.InFlight ∨ ballState = BallState.OnGround then
        { w1 with dogState := DogState.ChasingBall }
      else if distToWait < waitThreshold then
        { w1 with dogState := DogState.Idle }
      else w1

/-- World state after movement and bounds clamping, as throwSystem sees
it within a tick of main.ts. -/
noncomputable def afterBounds (w : World) (i : Input) (dt : ℝ) : World :=
  boundsSystem (playerMovementSystem w i dt) worldWidth worldHeight 25

/-- World state after the throw system within a tick of main.ts. -/
noncomputable def afterThrow (w : World) (i : Input) (dt : ℝ) : World :=
  throwSystem (afterBounds w i dt) i dt

/-- World state after ball physics within a tick of main.ts, as the dog
AI sees it. -/
noncomputable def afterPhysics (w : World) (i : Input) (dt : ℝ) : World :=
  ballPhysicsSystem (afterThrow w i dt) dt worldWidth worldHeight

/-- One full simulation tick of main.ts with the three-state dog AI:
player movement, bounds clamp (margin 25), throw, ball physics, dog AI. -/
noncomputable def tick (w : World) (i : Input) (dt : ℝ) : World :=
  dogAISystem (afterPhysics w i dt) dt

/-- One full simulation tick with the richer four-state dog AI; the
angle argument is the explicit randomness of calculateWaitPosition. -/
noncomputable def tickRich (w : World) (i : Input) (dt angle : ℝ) : World :=
  dogAISystemRich (afterPhysics w i dt) dt angle

/-- Euclidean norm of the ball's velocity, the speed used by the
stop-detection check of ball.ts. -/
noncomputable def ballSpeed (w : World) : ℝ :=
  Real.sqrt (w.ballVelX ^ 2 + w.ballVelY ^ 2)

/-! ## Helper lemmas -/

/-- Real.sqrt evaluated at a perfect square. -/
theorem sqrt_eval {a b : ℝ} (hb : 0 ≤ b) (h : b ^ 2 = a) : Real.sqrt a = b := by
  subst h; exact Real.sqrt_sq hb

/-- Math.pow(x, dt * 60) at the nominal frame time dt = 1/60 is the
identity. -/
theorem rpow_tick (x : ℝ) : x ^ ((1 / 60 : ℝ) * 60) = x := by
  rw [show ((1 : ℝ) / 60) * 60 = 1 by norm_num, Real.rpow_one]

theorem afterBounds_chargePower (w : World) (i : Input) (dt : ℝ) :
    (afterBounds w i dt).chargePower = w.chargePower := rfl

theorem afterBounds_chargeActive (w : World) (i : Input) (dt : ℝ) :
    (afterBounds w i dt).chargeActive = w.chargeActive := rfl

theorem afterBounds_ballState (w : World) (i : Input) (dt : ℝ) :
    (afterBounds w i dt).ballState = w.ballState := rfl

theorem afterBounds_dogState (w : World) (i : Input) (dt : ℝ) :
    (afterBounds w i dt).dogState = w.dogState := rfl

theorem throwSystem_playerX (w : World) (i : Input) (dt : ℝ) :
    (throwSystem w i dt).playerX = w.playerX := by
  unfold throwSystem
  dsimp only
  repeat' split
  all_goals rfl

theorem throwSystem_playerY (w : World) (i : Input) (dt : ℝ) :
    (throwSystem w i dt).playerY = w.playerY := by
  unfold throwSystem
  dsimp only
  repeat' split
  all_goals rfl

theorem throwSystem_dogState (w : World) (i : Input) (dt : ℝ) :
    (throwSystem w i dt).dogState = w.dogState := by
  unfold throwSystem
  dsimp only
  repeat' split
  all_goals rfl

theorem throwSystem_dogX (w : World) (i : Input) (dt : ℝ) :
    (throwSystem w i dt).dogX = w.dogX := by
  unfold throwSystem
  dsimp only
  repeat' split
  all_goals rfl

theorem throwSystem_dogY (w : World) (i : Input) (dt : ℝ) :
    (throwSystem w i dt).dogY = w.dogY := by
  unfold throwSystem
  dsimp only
  repeat' split
  all_goals rfl

/-- ballPhysicsSystem leaves a ball alone unless it is InFlight. -/
theorem ballPhysicsSystem_skip (w : World) (dt width height : ℝ)
    (h : w.ballState ≠ BallState.InFlight) :
    ballPhysicsSystem w dt width height = w := by
  unfold ballPhysicsSystem
  rw [if_neg h]

theorem ballPhysicsSystem_chargePower (w : World) (dt width height : ℝ) :
    (ballPhysicsSystem w dt width height).chargePower = w.chargePower := by
  unfold ballPhysicsSystem
  repeat' split
  all_goals rfl

theorem ballPhysicsSystem_chargeActive (w : World) (dt width height : ℝ) :
    (ballPhysicsSystem w dt width height).chargeActive = w.chargeActive := by
  unfold ballPhysicsSystem
  repeat' split
  all_goals rfl

theorem ballPhysicsSystem_dogState (w : World) (dt width height : ℝ) :
    (ballPhysicsSystem w dt width height).dogState = w.dogState := by
  unfold ballPhysicsSystem
  repeat' split
  all_goals rfl

theorem dogAISystem_chargePower (w : World) (dt : ℝ) :
    (dogAISystem w dt).chargePower = w.chargePower := by
  unfold dogAISystem
  dsimp only
  repeat' split
  all_goals rfl

theorem dogAISystem_chargeActive (w : World) (dt : ℝ) :
    (dogAISystem w dt).chargeActive = w.chargeActive := by
  unfold dogAISystem
  dsimp only
  repeat' split
  all_goals rfl

theorem dogAISystem_playerX (w : World) (dt : ℝ) :
    (dogAISystem w dt).playerX = w.playerX := by
  unfold dogAISystem
  dsimp only
  repeat' split
  all_goals rfl

theorem dogAISystem_playerY (w : World) (dt : ℝ) :
    (dogAISystem w dt).playerY = w.playerY := by
  unfold dogAISystem
  dsimp only
  repeat' split
  all_goals rfl

/-- Initial world of main.ts: player at the centre (400, 300) with speed
200, dog at (300, 350) with speed 250 in Idle, ball held by the player at
the (25, 0) hand offset with friction 0.98. -/
noncomputable def baseWorld : World :=
  { playerX := 400, playerY := 300, playerSpeed := 200,
    chargePower := 0, chargeTargetX := 0, chargeTargetY := 0, chargeActive := false,
    dogState := DogState.Idle, dogSpeed := 250, dogX := 300, dogY := 350,
    dogExcited := false, dogWaitX := 0, dogWaitY := 0,
    ballState := BallState.HeldByPlayer, ballFriction := 0.98, ballHeldBy := playerEid,
    ballX := 425, ballY := 300, ballVelX := 0, ballVelY := 0 }

/-- Input snapshot with no keys, no pointer activity, pointer at the
origin. -/
noncomputable def idleInput : Input :=
  { mouseX := 0, mouseY := 0, mouseDown := false, mousePressed := false,
    mouseReleased := false, movingUp := false, movingDown := false,
    movingLeft := false, movingRight := false }

/-! ## Claim C4: release correctness at full power -/

/-- C4: if the player is at (0,0), the aim target (pointer) is at
(100,0), and the throw is released at power 1, the resulting ball
velocity is (maxThrowPower, 0), the ball state becomes InFlight and the
holder reference is cleared. -/
theorem claim4_release_full_power
    (w : World) (i : Input) (dt : ℝ)
    (hpx : w.playerX = 0) (hpy : w.playerY = 0)
    (hmx : i.mouseX = 100) (hmy : i.mouseY = 0)
    (hrel : i.mouseReleased = true) (hpr : i.mousePressed = false)
    (hdown : i.mouseDown = false)
    (hact : w.chargeActive = true) (hpow : w.chargePower = 1) :
    (throwSystem w i dt).ballVelX = maxThrowPower ∧
    (throwSystem w i dt).ballVelY = 0 ∧
    (throwSystem w i dt).ballState = BallState.InFlight ∧
    (throwSystem w i dt).ballHeldBy = 0 := by
  have hs : Real.sqrt ((100 : ℝ) * 100 + 0 * 0) = 100 :=
    sqrt_eval (by norm_num) (by norm_num)
  simp [throwSystem, hpx, hpy, hmx, hmy, hrel, hpr, hdown, hact, hpow, hs,
    minThrowPower, maxThrowPower]
  split <;> simp

/-- Concrete world for the release witnesses: player at the origin,
charge active at full power. -/
noncomputable def releaseWorld : World :=
  { baseWorld with playerX := 0, playerY := 0, chargeActive := true, chargePower := 1 }

/-- Concrete input for the release witnesses: pointer at (100, 0),
release edge this frame. -/
noncomputable def releaseInput : Input :=
  { idleInput with mouseX := 100, mouseY := 0, mouseReleased := true }

/-- Witness for claim4_release_full_power at a concrete world and
input. -/
theorem claim4_release_full_power_witness :
    (throwSystem releaseWorld releaseInput (1 / 60)).ballVelX = maxThrowPower ∧
    (throwSystem releaseWorld releaseInput (1 / 60)).ballVelY = 0 ∧
    (throwSystem releaseWorld releaseInput (1 / 60)).ballState = BallState.InFlight ∧
    (throwSystem releaseWorld releaseInput (1 / 60)).ballHeldBy = 0 :=
  claim4_release_full_power _ _ _ rfl rfl rfl rfl rfl rfl rfl rfl rfl

/-! ## Claim C8: degenerate (zero-length) release -/

/-- C8: a release whose aim target coincides with the player still
clears the charge state (active and power) and the dog's excited flag,
but imparts no velocity and leaves the ball state and holder
unchanged. -/
theorem claim8_degenerate_release
    (w : World) (i : Input) (dt : ℝ)
    (hrel : i.mouseReleased = true) (hact : w.chargeActive = true)
    (hmx : i.mouseX = w.playerX) (hmy : i.mouseY = w.playerY) :
    (throwSystem w i dt).chargeActive = false ∧
    (throwSystem w i dt).chargePower = 0 ∧
    (throwSystem w i dt).dogExcited = false ∧
    (throwSystem w i dt).ballVelX = w.ballVelX ∧
    (throwSystem w i dt).ballVelY = w.ballVelY ∧
    (throwSystem w i dt).ballState = w.ballState ∧
    (throwSystem w i dt).ballHeldBy = w.ballHeldBy := by
  by_cases hp : i.mousePressed = true <;>
    by_cases hb : w.ballState = BallState.HeldByPlayer <;>
      by_cases hd : i.mouseDown = true <;>
        simp [throwSystem, hrel, hact, hmx, hmy, hp, hb, hd]

/-- Concrete world for the degenerate-release witness: charging at full
power with the dog excited. -/
noncomputable def degenWorld : World :=
  { baseWorld with chargeActive := true, chargePower := 1, dogExcited := true }

/-- Concrete input for the degenerate-release witness: pointer exactly
on the player (400, 300), release edge this frame. -/
noncomputable def degenInput : Input :=
  { idleInput with mouseX := 400, mouseY := 300, mouseReleased := true }

/-- Witness for claim8_degenerate_release: the release clears
charge/excited but leaves the ball untouched. -/
theorem claim8_degenerate_release_witness :
    (throwSystem degenWorld degenInput (1 / 60)).chargeActive = false ∧
    (throwSystem degenWorld degenInput (1 / 60)).chargePower = 0 ∧
    (throwSystem degenWorld degenInput (1 / 60)).dogExcited = false ∧
    (throwSystem degenWorld degenInput (1 / 60)).ballVelX = degenWorld.ballVelX ∧
    (throwSystem degenWorld degenInput (1 / 60)).ballVelY = degenWorld.ballVelY ∧
    (throwSystem degenWorld degenInput (1 / 60)).ballState = degenWorld.ballState ∧
    (throwSystem degenWorld degenInput (1 / 60)).ballHeldBy = degenWorld.ballHeldBy :=
  claim8_degenerate_release _ _ _ rfl rfl rfl rfl

/-! ## Claim C7: charging monotonicity -/

/-- C7: over a full tick with the charge active (so with no press edge,
which cannot occur while the pointer is already held) and the power
within its [0, 1] range invariant, the power after the tick never
exceeds 1, and as long as the charge is still active after the tick the
power is non-decreasing. -/
theorem claim7_charge_monotone
    (w : World) (i : Input) (dt : ℝ)
    (hdt : 0 ≤ dt) (hp1 : w.chargePower ≤ 1)
    (hact : w.chargeActive = true) (hpr : i.mousePressed = false)
    (hdr : i.mouseReleased = true → i.mouseDown = false) :
    (tick w i dt).chargePower ≤ 1 ∧
    ((tick w i dt).chargeActive = true →
      w.chargePower ≤ (tick w i dt).chargePower) := by
  have e1 : (tick w i dt).chargePower
      = (throwSystem (afterBounds w i dt) i dt).chargePower := by
    simp [tick, afterPhysics, afterThrow, dogAISystem_chargePower,
      ballPhysicsSystem_chargePower]
  have e2 : (tick w i dt).chargeActive
      = (throwSystem (afterBounds w i dt) i dt).chargeActive := by
    simp [tick, afterPhysics, afterThrow, dogAISystem_chargeActive,
      ballPhysicsSystem_chargeActive]
  rw [e1, e2]
  have hactb : (afterBounds w i dt).chargeActive = true := hact
  have hpb : (afterBounds w i dt).chargePower = w.chargePower := rfl
  by_cases hd : i.mouseDown = true
  · have hr : i.mouseReleased = false := by
      cases hR : i.mouseReleased
      · rfl
      · rw [hdr hR] at hd
        exact absurd hd (by simp)
    simp [throwSystem, hpr, hactb, hpb, hd, hr, chargeRate]
    split <;>
      exact ⟨min_le_left _ _, fun _ => le_min hp1 (by linarith)⟩
  · by_cases hr : i.mouseReleased = true
    · simp [throwSystem, hpr, hactb, hpb, hd, hr, chargeRate]
      split <;> simp
    · simp [throwSystem, hpr, hactb, hpb, hd, hr, chargeRate]
      split <;> exact ⟨hp1, fun _ => le_rfl⟩

/-- Witness for claim7_charge_monotone: a mid-charge tick at dt = 1/60
keeps the power within bounds and non-decreasing. -/
theorem claim7_charge_monotone_witness :
    (tick { baseWorld with chargeActive := true, chargePower := 0.5 }
        { idleInput with mouseDown := true } (1 / 60)).chargePower ≤ 1 ∧
    ((tick { baseWorld with chargeActive := true, chargePower := 0.5 }
        { idleInput with mouseDown := true } (1 / 60)).chargeActive = true →
      ({ baseWorld with chargeActive := true, chargePower := 0.5 } : World).chargePower ≤
        (tick { baseWorld with chargeActive := true, chargePower := 0.5 }
          { idleInput with mouseDown := true } (1 / 60)).chargePower) :=
  claim7_charge_monotone _ _ _ (by norm_num) (by norm_num) rfl rfl
    (fun h => by simp [idleInput] at h)

/-! ## Claim C10: a released throw still starts at the hand offset -/

/-- C10: on a non-degenerate release frame, throwSystem sets the ball
InFlight with the interpolated throw velocity and a cleared holder, and
nevertheless repositions the ball at the player plus (25, 0), because
the end-of-system pin tests the ball state read at the top of the
system; the imparted velocity is nonzero, and in the same tick's ball
physics step it advances the ball from the hand offset whenever no wall
is crossed and the speed stays at or above the stop threshold. -/
theorem claim10_release_pin
    (w : World) (i : Input) (dt : ℝ)
    (hb : w.ballState = BallState.HeldByPlayer)
    (hrel : i.mouseReleased = true) (hpr : i.mousePressed = false)
    (hdown : i.mouseDown = false) (hact : w.chargeActive = true)
    (hpow : 0 ≤ w.chargePower)
    (hnd : ¬ (i.mouseX = w.playerX ∧ i.mouseY = w.playerY)) :
    (throwSystem w i dt).ballState = BallState.InFlight ∧
    (throwSystem w i dt).ballX = w.playerX + 25 ∧
    (throwSystem w i dt).ballY = w.playerY ∧
    (throwSystem w i dt).ballHeldBy = 0 ∧
    ¬ ((throwSystem w i dt).ballVelX = 0 ∧ (throwSystem w i dt).ballVelY = 0) ∧
    (∀ width height : ℝ,
      ¬ movedBallX (throwSystem w i dt) dt < 15 →
      ¬ movedBallX (throwSystem w i dt) dt > width - 15 →
      ¬ movedBallY (throwSystem w i dt) dt < 15 →
      ¬ movedBallY (throwSystem w i dt) dt > height - 15 →
      ¬ postBounceSpeed (throwSystem w i dt) dt width height < stopThreshold →
      (ballPhysicsSystem (throwSystem w i dt) dt width height).ballX
          = w.playerX + 25 + decayedVelX (throwSystem w i dt) dt * dt ∧
      (ballPhysicsSystem (throwSystem w i dt) dt width height).ballY
          = w.playerY + decayedVelY (throwSystem w i dt) dt * dt) := by
  have hdx : i.mouseX - w.playerX ≠ 0 ∨ i.mouseY - w.playerY ≠ 0 := by
    rcases not_and_or.mp hnd with h | h
    · exact Or.inl (sub_ne_zero.mpr h)
    · exact Or.inr (sub_ne_zero.mpr h)
  have hsum : 0 < (i.mouseX - w.playerX) * (i.mouseX - w.playerX)
      + (i.mouseY - w.playerY) * (i.mouseY - w.playerY) := by
    rcases hdx with h | h
    · have := mul_self_pos.mpr h
      nlinarith [mul_self_nonneg (i.mouseY - w.playerY)]
    · have := mul_self_pos.mpr h
      nlinarith [mul_self_nonneg (i.mouseX - w.playerX)]
  have hdist : 0 < Real.sqrt ((i.mouseX - w.playerX) * (i.mouseX - w.playerX)
      + (i.mouseY - w.playerY) * (i.mouseY - w.playerY)) :=
    Real.sqrt_pos.mpr hsum
  have hP : 0 < minThrowPower + w.chargePower * (maxThrowPower - minThrowPower) := by
    unfold minThrowPower maxThrowPower
    nlinarith
  have hthrow : throwSystem w i dt =
      { w with
        chargeTargetX := i.mouseX, chargeTargetY := i.mouseY,
        ballVelX := (i.mouseX - w.playerX) /
            Real.sqrt ((i.mouseX - w.playerX) * (i.mouseX - w.playerX)
              + (i.mouseY - w.playerY) * (i.mouseY - w.playerY)) *
            (minThrowPower + w.chargePower * (maxThrowPower - minThrowPower)),
        ballVelY := (i.mouseY - w.playerY) /
            Real.sqrt ((i.mouseX - w.playerX) * (i.mouseX - w.playerX)
              + (i.mouseY - w.playerY) * (i.mouseY - w.playerY)) *
            (minThrowPower + w.chargePower * (maxThrowPower - minThrowPower)),
        ballState := BallState.InFlight, ballHeldBy := 0,
        chargeActive := false, chargePower := 0, dogExcited := false,
        ballX := w.playerX + 25, ballY := w.playerY } := by
    simp [throwSystem, hb, hrel, hpr, hdown, hact, hdist]
  rw [hthrow]
  refine ⟨rfl, rfl, rfl, rfl, ?_, ?_⟩
  · rintro ⟨h1, h2⟩
    simp only at h1 h2
    rcases hdx with h | h
    · exact h (by
        have := mul_eq_zero.mp h1
        rcases this with h3 | h3
        · exact (div_eq_zero_iff.mp h3).resolve_right (ne_of_gt hdist)
        · exact absurd h3 (ne_of_gt hP))
    · exact h (by
        have := mul_eq_zero.mp h2
        rcases this with h3 | h3
        · exact (div_eq_zero_iff.mp h3).resolve_right (ne_of_gt hdist)
        · exact absurd h3 (ne_of_gt hP))
  · intro width height h1 h2 h3 h4 h5
    unfold ballPhysicsSystem
    rw [if_pos rfl, if_neg h5]
    unfold postBounceX postBounceY bounceAxis
    rw [if_neg h1, if_neg h2, if_neg h3, if_neg h4]
    exact ⟨rfl, rfl⟩

/-- Witness for claim10_release_pin: full-power release from the origin
toward (100, 0). -/
theorem claim10_release_pin_witness :
    (throwSystem releaseWorld releaseInput (1 / 60)).ballState = BallState.InFlight ∧
    (throwSystem releaseWorld releaseInput (1 / 60)).ballX = releaseWorld.playerX + 25 ∧
    (throwSystem releaseWorld releaseInput (1 / 60)).ballY = releaseWorld.playerY ∧
    (throwSystem releaseWorld releaseInput (1 / 60)).ballHeldBy = 0 := by
  have h := claim10_release_pin releaseWorld releaseInput (1 / 60)
    rfl rfl rfl rfl rfl (by norm_num [releaseWorld, baseWorld])
    (by
      intro hc
      have : (100 : ℝ) = 0 := by
        have h1 := hc.1
        simp [releaseInput, releaseWorld, baseWorld, idleInput] at h1
      norm_num at this)
  exact ⟨h.1, h.2.1, h.2.2.1, h.2.2.2.1⟩

/-! ## Claim C3: dog state machine legal edges -/

/-- Legal edges of the three-state dog machine of dogAI.ts: staying put,
Idle to ChasingBall, ChasingBall to ReturningToPlayer or back to Idle,
ReturningToPlayer to Idle on delivery. -/
def legalEdgeSimple (s t : DogState) : Prop :=
  s = t ∨
  (s = DogState.Idle ∧ t = DogState.ChasingBall) ∨
  (s = DogState.ChasingBall ∧ (t = DogState.ReturningToPlayer ∨ t = DogState.Idle)) ∨
  (s = DogState.ReturningToPlayer ∧ t = DogState.Idle)

/-- Legal edges of the four-state dog machine of the richer dogAI
variant: staying put, Idle to ChasingBall, ChasingBall to
ReturningToPlayer or BackingOff, ReturningToPlayer to BackingOff,
BackingOff to ChasingBall or Idle. -/
def legalEdgeRich (s t : DogState) : Prop :=
  s = t ∨
  (s = DogState.Idle ∧ t = DogState.ChasingBall) ∨
  (s = DogState.ChasingBall ∧ (t = DogState.ReturningToPlayer ∨ t = DogState.BackingOff)) ∨
  (s = DogState.ReturningToPlayer ∧ t = DogState.BackingOff) ∨
  (s = DogState.BackingOff ∧ (t = DogState.ChasingBall ∨ t = DogState.Idle))

/-- The ball state that lets the dog start or keep chasing: InFlight or
OnGround, i.e. not held by anyone. -/
def ballFree (w : World) : Prop :=
  w.ballState = BallState.InFlight ∨ w.ballState = BallState.OnGround

/-- Pre-move distance from the dog to the ball, as tested against
PICKUP_DISTANCE by dogAI.ts. -/
noncomputable def dogBallDist (w : World) : ℝ :=
  Real.sqrt ((w.dogX - w.ballX) ^ 2 + (w.dogY - w.ballY) ^ 2)

/-- C3: no system before the dog AI changes the dog state within a tick,
and in both dog AI variants the state moves only along the legal edges:
from Idle to ChasingBall only when the ball is InFlight or OnGround;
from ChasingBall to ReturningToPlayer only when the pre-move distance to
the ball is below the pickup threshold and the ball is not already held;
never directly from Idle to ReturningToPlayer. -/
theorem claim3_dog_legal_edges :
    (∀ (w : World) (i : Input) (dt : ℝ),
      (afterPhysics w i dt).dogState = w.dogState) ∧
    (∀ (w : World) (dt : ℝ),
      legalEdgeSimple w.dogState (dogAISystem w dt).dogState ∧
      (w.dogState = DogState.Idle →
        (dogAISystem w dt).dogState = DogState.ChasingBall → ballFree w) ∧
      (w.dogState = DogState.ChasingBall →
        (dogAISystem w dt).dogState = DogState.ReturningToPlayer →
        dogBallDist w < pickupDistance ∧ ballFree w) ∧
      ¬ (w.dogState = DogState.Idle ∧
        (dogAISystem w dt).dogState = DogState.ReturningToPlayer)) ∧
    (∀ (w : World) (dt angle : ℝ),
      legalEdgeRich w.dogState (dogAISystemRich w dt angle).dogState ∧
      (w.dogState = DogState.Idle →
        (dogAISystemRich w dt angle).dogState = DogState.ChasingBall → ballFree w) ∧
      (w.dogState = DogState.ChasingBall →
        (dogAISystemRich w dt angle).dogState = DogState.ReturningToPlayer →
        dogBallDist w < pickupDistance ∧ ballFree w) ∧
      ¬ (w.dogState = DogState.Idle ∧
        (dogAISystemRich w dt angle).dogState = DogState.ReturningToPlayer)) := by
  refine ⟨?_, ?_, ?_⟩
  · intro w i dt
    simp [afterPhysics, afterThrow, ballPhysicsSystem_dogState, throwSystem_dogState,
      afterBounds_dogState]
  · intro w dt
    cases hds : w.dogState <;>
      simp [dogAISystem, hds, legalEdgeSimple, ballFree, dogBallDist] <;>
      repeat' split
    all_goals simp_all [legalEdgeSimple, ballFree, dogBallDist]
  · intro w dt angle
    cases hds : w.dogState <;>
      simp [dogAISystemRich, hds, legalEdgeRich, ballFree, dogBallDist] <;>
      repeat' split
    all_goals simp_all [legalEdgeRich, ballFree, dogBallDist]

/-! ## Claim C9: per-tick determinism up to the wait-position randomness -/

/-- Distance from the dog to the player, the degeneracy test of
calculateWaitPosition. -/
noncomputable def playerDogDist (w : World) : ℝ :=
  Real.sqrt ((w.dogX - w.playerX) * (w.dogX - w.playerX)
    + (w.dogY - w.playerY) * (w.dogY - w.playerY))

/-- Real.sqrt dominates 1 on arguments at least 1. -/
theorem one_le_sqrt_of {x : ℝ} (h : 1 ≤ x) : 1 ≤ Real.sqrt x := by
  rw [show (1 : ℝ) = Real.sqrt 1 by simp]
  exact Real.sqrt_le_sqrt h

/-- calculateWaitPosition ignores its random angle whenever the dog is
at distance at least 1 from the player. -/
theorem calculateWaitPosition_angle_irrelevant
    (playerX playerY dogX dogY a b width height : ℝ)
    (h : 1 ≤ Real.sqrt ((dogX - playerX) * (dogX - playerX)
      + (dogY - playerY) * (dogY - playerY))) :
    calculateWaitPosition playerX playerY dogX dogY a width height
      = calculateWaitPosition playerX playerY dogX dogY b width height := by
  have h' : ¬ (Real.sqrt ((dogX - playerX) * (dogX - playerX)
      + (dogY - playerY) * (dogY - playerY)) < 1) := not_lt.mpr h
  simp only [calculateWaitPosition]
  rw [if_neg h', if_neg h', if_neg h', if_neg h']

/-- C9: two runs of a full tick from the same world with the same input
and dt agree exactly, for any two draws of the explicit randomness, as
long as the dog is not sitting on the player (distance at least 1) when
the dog AI runs; the angle is the only non-determinism of the tick. -/
theorem claim9_tick_deterministic
    (w : World) (i : Input) (dt a b : ℝ)
    (h : 1 ≤ playerDogDist (afterPhysics w i dt)) :
    tickRich w i dt a = tickRich w i dt b := by
  unfold tickRich
  unfold playerDogDist at h
  have hcw := calculateWaitPosition_angle_irrelevant
    (afterPhysics w i dt).playerX (afterPhysics w i dt).playerY
    (afterPhysics w i dt).dogX (afterPhysics w i dt).dogY a b 800 600 h
  cases hds : (afterPhysics w i dt).dogState <;>
    simp [dogAISystemRich, hds, hcw]

/-- Concrete world for the determinism witness: the ball sits OnGround
away from everyone, the dog is 50 units from the player. -/
noncomputable def detWorld : World :=
  { baseWorld with
    dogX := 400
    dogY := 350
    ballState := BallState.OnGround
    ballX := 600
    ballY := 300
    ballHeldBy := 0 }

/-- Witness for claim9_tick_deterministic: two concrete angle draws give
the same tick result. -/
theorem claim9_tick_deterministic_witness :
    tickRich detWorld idleInput (1 / 60) 0 = tickRich detWorld idleInput (1 / 60) 1 :=
  claim9_tick_deterministic _ _ _ 0 1 (by
    have e : afterPhysics detWorld idleInput (1 / 60) = detWorld := by
      simp [afterPhysics, afterThrow, afterBounds, playerMovementSystem,
        boundsSystem, throwSystem, ballPhysicsSystem, clampTo, detWorld,
        baseWorld, idleInput, min_def, max_def, worldWidth, worldHeight]
      all_goals norm_num
    rw [e]
    have hd : playerDogDist detWorld = Real.sqrt 2500 := by
      norm_num [playerDogDist, detWorld, baseWorld]
    rw [hd]
    exact one_le_sqrt_of (by norm_num))

/-! ## Claims C1 and C2: hold offsets -/

/-- throwSystem pins the ball to player + (25, 0) whenever the ball
state it read at the top of the system is HeldByPlayer. -/
theorem throwSystem_pin (w : World) (i : Input) (dt : ℝ)
    (h : w.ballState = BallState.HeldByPlayer) :
    (throwSystem w i dt).ballX = w.playerX + 25 ∧
    (throwSystem w i dt).ballY = w.playerY := by
  simp [throwSystem, h]

/-- dogAISystem does not move a ball that is HeldByPlayer. -/
theorem dogAISystem_held_ball_frame (w : World) (dt : ℝ)
    (h : w.ballState = BallState.HeldByPlayer) :
    (dogAISystem w dt).ballX = w.ballX ∧ (dogAISystem w dt).ballY = w.ballY := by
  cases hds : w.dogState <;> simp [dogAISystem, hds, h]
  all_goals repeat' split
  all_goals simp_all

/-- C1 (amended): if the ball is HeldByPlayer when throwSystem reads it
and still HeldByPlayer after throwSystem (no non-degenerate release this
tick), then at the end of the tick the ball sits exactly at the player
plus the (25, 0) hand offset. The unconditional end-of-tick form fails
on the delivery tick (see the counterexample). -/
theorem claim1_heldByPlayer_pin
    (w : World) (i : Input) (dt : ℝ)
    (h1 : (afterBounds w i dt).ballState = BallState.HeldByPlayer)
    (h2 : (afterThrow w i dt).ballState = BallState.HeldByPlayer) :
    (tick w i dt).ballX = (tick w i dt).playerX + 25 ∧
    (tick w i dt).ballY = (tick w i dt).playerY := by
  have hpin : (afterThrow w i dt).ballX = (afterBounds w i dt).playerX + 25 ∧
      (afterThrow w i dt).ballY = (afterBounds w i dt).playerY :=
    throwSystem_pin _ _ _ h1
  have hskip : ballPhysicsSystem (afterThrow w i dt) dt worldWidth worldHeight
      = afterThrow w i dt :=
    ballPhysicsSystem_skip _ _ _ _ (by rw [h2]; simp)
  have e : tick w i dt = dogAISystem (afterThrow w i dt) dt := by
    unfold tick afterPhysics
    rw [hskip]
  have hball := dogAISystem_held_ball_frame (afterThrow w i dt) dt h2
  rw [e, hball.1, hball.2, dogAISystem_playerX, dogAISystem_playerY,
    hpin.1, hpin.2]
  constructor
  · rw [show (afterThrow w i dt).playerX = (afterBounds w i dt).playerX from
      throwSystem_playerX _ _ _]
  · rw [show (afterThrow w i dt).playerY = (afterBounds w i dt).playerY from
      throwSystem_playerY _ _ _]

/-- Witness for claim1_heldByPlayer_pin: a quiet tick from the initial
world keeps the held ball at the hand offset. -/
theorem claim1_heldByPlayer_pin_witness :
    (tick baseWorld idleInput (1 / 60)).ballX
        = (tick baseWorld idleInput (1 / 60)).playerX + 25 ∧
    (tick baseWorld idleInput (1 / 60)).ballY
        = (tick baseWorld idleInput (1 / 60)).playerY :=
  claim1_heldByPlayer_pin _ _ _ rfl
    (by simp [afterThrow, throwSystem, idleInput, afterBounds_chargeActive,
      afterBounds_ballState, baseWorld])

/-- Concrete delivery tick for the C1 counterexample: the dog is
returning, 30 units above the player, carrying the ball. -/
noncomputable def c1World : World :=
  { baseWorld with
    dogState := DogState.ReturningToPlayer
    dogX := 400
    dogY := 330
    ballState := BallState.HeldByDog
    ballHeldBy := dogEid
    ballX := 415
    ballY := 330 }

/-- C1 (counterexample): on the delivery tick the ball ends HeldByPlayer
but sits at the dog's carry offset, not at player + (25, 0). -/
theorem claim1_heldByPlayer_pin_counterexample :
    (tick c1World idleInput (1 / 60)).ballState = BallState.HeldByPlayer ∧
    (tick c1World idleInput (1 / 60)).ballX
      ≠ (tick c1World idleInput (1 / 60)).playerX + 25 := by
  have hs900 : Real.sqrt 900 = 30 := sqrt_eval (by norm_num) (by norm_num)
  have hd : Real.sqrt (((400 : ℝ) - 400) * (400 - 400) + (300 - 330) * (300 - 330)) = 30 := by
    norm_num
    exact hs900
  have hmv : moveToward 400 330 400 300 250 (1 / 60) = (400, 1955 / 6, 30) := by
    simp only [moveToward]
    rw [hd, if_pos (by norm_num : (30 : ℝ) > 1)]
    rw [if_neg (by norm_num : ¬ |((400 : ℝ) - 400) / 30 * 250 * (1 / 60)| > |(400 : ℝ) - 400|)]
    rw [if_neg (by
      have e1 : |((300 : ℝ) - 330) / 30 * 250 * (1 / 60)| = 25 / 6 := by
        rw [abs_of_nonpos (by norm_num)]
        norm_num
      have e2 : |(300 : ℝ) - 330| = 30 := by
        rw [abs_of_nonpos (by norm_num)]
        norm_num
      rw [gt_iff_lt, e1, e2]
      norm_num)]
    norm_num
  have e : afterPhysics c1World idleInput (1 / 60) = c1World := by
    simp [afterPhysics, afterThrow, afterBounds, playerMovementSystem,
      boundsSystem, throwSystem, ballPhysicsSystem, clampTo, c1World,
      baseWorld, idleInput, min_def, max_def, worldWidth, worldHeight]
    all_goals norm_num
  unfold tick
  rw [e]
  norm_num [dogAISystem, c1World, baseWorld, hmv, hs900, deliveryDistance]

/-- dogAISystem pins a HeldByDog ball to the returning dog plus the
(15, 0) carry offset, whether or not the dog also delivers this tick. -/
theorem claim2_heldByDog_pin
    (w : World) (i : Input) (dt : ℝ)
    (h1 : (afterPhysics w i dt).ballState = BallState.HeldByDog)
    (h2 : (afterPhysics w i dt).dogState = DogState.ReturningToPlayer) :
    (tick w i dt).ballX = (tick w i dt).dogX + 15 ∧
    (tick w i dt).ballY = (tick w i dt).dogY := by
  unfold tick
  simp [dogAISystem, h1, h2]
  split <;> exact ⟨rfl, rfl⟩

/-- Concrete world for the C2 witness: the dog is returning with the
ball from (300, 300), the player is 100 units away. -/
noncomputable def c2ReturnWorld : World :=
  { baseWorld with
    dogState := DogState.ReturningToPlayer
    dogX := 300
    dogY := 300
    ballState := BallState.HeldByDog
    ballHeldBy := dogEid
    ballX := 315
    ballY := 300 }

/-- Witness for claim2_heldByDog_pin on a concrete returning tick. -/
theorem claim2_heldByDog_pin_witness :
    (tick c2ReturnWorld idleInput (1 / 60)).ballX
        = (tick c2ReturnWorld idleInput (1 / 60)).dogX + 15 ∧
    (tick c2ReturnWorld idleInput (1 / 60)).ballY
        = (tick c2ReturnWorld idleInput (1 / 60)).dogY := by
  have e : afterPhysics c2ReturnWorld idleInput (1 / 60) = c2ReturnWorld := by
    simp [afterPhysics, afterThrow, afterBounds, playerMovementSystem,
      boundsSystem, throwSystem, ballPhysicsSystem, clampTo, c2ReturnWorld,
      baseWorld, idleInput, min_def, max_def, worldWidth, worldHeight]
    all_goals norm_num
  exact claim2_heldByDog_pin _ _ _ (by rw [e]; rfl) (by rw [e]; rfl)

/-- Concrete pickup tick for the C2 counterexample: the ball lies
OnGround at (500, 300) and the chasing dog is 10 units short of it. -/
noncomputable def c2World : World :=
  { baseWorld with
    playerX := 100
    playerY := 300
    dogState := DogState.ChasingBall
    dogX := 490
    dogY := 300
    ballState := BallState.OnGround
    ballHeldBy := 0
    ballX := 500
    ballY := 300 }

/-- C2 (counterexample): on the pickup tick the ball ends HeldByDog but
stays where it was caught, not at the dog's carry offset (15, 0). -/
theorem claim2_heldByDog_pin_counterexample :
    (tick c2World idleInput (1 / 60)).ballState = BallState.HeldByDog ∧
    (tick c2World idleInput (1 / 60)).ballX
      ≠ (tick c2World idleInput (1 / 60)).dogX + 15 := by
  have hs100 : Real.sqrt 100 = 10 := sqrt_eval (by norm_num) (by norm_num)
  have hd : Real.sqrt (((500 : ℝ) - 490) * (500 - 490) + (300 - 300) * (300 - 300)) = 10 := by
    norm_num
    exact hs100
  have hmv : moveToward 490 300 500 300 250 (1 / 60) = (2965 / 6, 300, 10) := by
    simp only [moveToward]
    rw [hd, if_pos (by norm_num : (10 : ℝ) > 1)]
    rw [if_neg (by
      have e1 : |((500 : ℝ) - 490) / 10 * 250 * (1 / 60)| = 25 / 6 := by
        rw [abs_of_nonneg (by norm_num)]
        norm_num
      have e2 : |(500 : ℝ) - 490| = 10 := by
        rw [abs_of_nonneg (by norm_num)]
        norm_num
      rw [gt_iff_lt, e1, e2]
      norm_num)]
    rw [if_neg (by norm_num : ¬ |((300 : ℝ) - 300) / 10 * 250 * (1 / 60)| > |(300 : ℝ) - 300|)]
    norm_num
  have e : afterPhysics c2World idleInput (1 / 60) = c2World := by
    simp [afterPhysics, afterThrow, afterBounds, playerMovementSystem,
      boundsSystem, throwSystem, ballPhysicsSystem, clampTo, c2World,
      baseWorld, idleInput, min_def, max_def, worldWidth, worldHeight]
    all_goals norm_num
  unfold tick
  rw [e]
  norm_num [dogAISystem, c2World, baseWorld, hmv, hs100, pickupDistance]
  constructor
  · split <;> rfl
  · split <;> norm_num

/-! ## Claim C6: wall bounce -/

/-- C6: for an InFlight ball on a field at least 30 units wide and high,
with positive dt, each axis is handled independently: crossing a margin
from inside clamps the position to the margin and replaces the decayed
velocity component by its reflection damped by 0.7 (the crossing
direction forces the sign flip); the final state keeps these values
because the speed stays at or above the stop threshold. -/
theorem claim6_wall_bounce
    (w : World) (dt width height : ℝ)
    (hif : w.ballState = BallState.InFlight) (hdt : 0 < dt)
    (hw : 30 ≤ width) (hh : 30 ≤ height)
    (hsp : ¬ postBounceSpeed w dt width height < stopThreshold) :
    (15 ≤ w.ballX → movedBallX w dt < 15 →
      (ballPhysicsSystem w dt width height).ballX = 15 ∧
      (ballPhysicsSystem w dt width height).ballVelX = -(0.7 * decayedVelX w dt) ∧
      decayedVelX w dt < 0) ∧
    (w.ballX ≤ width - 15 → movedBallX w dt > width - 15 →
      (ballPhysicsSystem w dt width height).ballX = width - 15 ∧
      (ballPhysicsSystem w dt width height).ballVelX = -(0.7 * decayedVelX w dt) ∧
      0 < decayedVelX w dt) ∧
    (15 ≤ w.ballY → movedBallY w dt < 15 →
      (ballPhysicsSystem w dt width height).ballY = 15 ∧
      (ballPhysicsSystem w dt width height).ballVelY = -(0.7 * decayedVelY w dt) ∧
      decayedVelY w dt < 0) ∧
    (w.ballY ≤ height - 15 → movedBallY w dt > height - 15 →
      (ballPhysicsSystem w dt width height).ballY = height - 15 ∧
      (ballPhysicsSystem w dt width height).ballVelY = -(0.7 * decayedVelY w dt) ∧
      0 < decayedVelY w dt) := by
  have hphys : ballPhysicsSystem w dt width height =
      { w with ballX := (postBounceX w dt width).1, ballY := (postBounceY w dt height).1,
               ballVelX := (postBounceX w dt width).2,
               ballVelY := (postBounceY w dt height).2 } := by
    unfold ballPhysicsSystem
    rw [if_pos hif, if_neg hsp]
  refine ⟨?_, ?_, ?_, ?_⟩
  · intro hin hcross
    have hm : w.ballX + decayedVelX w dt * dt < 15 := by
      simpa [movedBallX] using hcross
    have hv : decayedVelX w dt < 0 := by
      by_contra hcon
      push_neg at hcon
      have := mul_nonneg hcon hdt.le
      linarith
    have hbx : postBounceX w dt width = (15, |decayedVelX w dt| * 0.7) := by
      unfold postBounceX bounceAxis
      rw [if_pos hcross]
    rw [hphys]
    refine ⟨by rw [hbx], ?_, hv⟩
    show (postBounceX w dt width).2 = -(0.7 * decayedVelX w dt)
    rw [hbx, abs_of_neg hv]
    ring
  · intro hin hcross
    have hm : w.ballX + decayedVelX w dt * dt > width - 15 := by
      simpa [movedBallX] using hcross
    have hv : 0 < decayedVelX w dt := by
      by_contra hcon
      push_neg at hcon
      have := mul_nonpos_of_nonpos_of_nonneg hcon hdt.le
      linarith
    have hnlo : ¬ movedBallX w dt < 15 := by
      have : (15 : ℝ) ≤ width - 15 := by linarith
      unfold movedBallX
      linarith
    have hbx : postBounceX w dt width = (width - 15, -|decayedVelX w dt| * 0.7) := by
      unfold postBounceX bounceAxis
      rw [if_neg hnlo, if_pos hcross]
    rw [hphys]
    refine ⟨by rw [hbx], ?_, hv⟩
    show (postBounceX w dt width).2 = -(0.7 * decayedVelX w dt)
    rw [hbx, abs_of_pos hv]
    ring
  · intro hin hcross
    have hm : w.ballY + decayedVelY w dt * dt < 15 := by
      simpa [movedBallY] using hcross
    have hv : decayedVelY w dt < 0 := by
      by_contra hcon
      push_neg at hcon
      have := mul_nonneg hcon hdt.le
      linarith
    have hby : postBounceY w dt height = (15, |decayedVelY w dt| * 0.7) := by
      unfold postBounceY bounceAxis
      rw [if_pos hcross]
    rw [hphys]
    refine ⟨by rw [hby], ?_, hv⟩
    show (postBounceY w dt height).2 = -(0.7 * decayedVelY w dt)
    rw [hby, abs_of_neg hv]
    ring
  · intro hin hcross
    have hm : w.ballY + decayedVelY w dt * dt > height - 15 := by
      simpa [movedBallY] using hcross
    have hv : 0 < decayedVelY w dt := by
      by_contra hcon
      push_neg at hcon
      have := mul_nonpos_of_nonpos_of_nonneg hcon hdt.le
      linarith
    have hnlo : ¬ movedBallY w dt < 15 := by
      have : (15 : ℝ) ≤ height - 15 := by linarith
      unfold movedBallY
      linarith
    have hby : postBounceY w dt height = (height - 15, -|decayedVelY w dt| * 0.7) := by
      unfold postBounceY bounceAxis
      rw [if_neg hnlo, if_pos hcross]
    rw [hphys]
    refine ⟨by rw [hby], ?_, hv⟩
    show (postBounceY w dt height).2 = -(0.7 * decayedVelY w dt)
    rw [hby, abs_of_pos hv]
    ring

/-- Concrete world for the bounce witness: ball InFlight just inside the
left margin, moving left so its decayed velocity is exactly -50. -/
noncomputable def bounceWorld : World :=
  { baseWorld with
    ballState := BallState.InFlight
    ballHeldBy := 0
    ballX := 31 / 2
    ballY := 300
    ballVelX := -2500 / 49
    ballVelY := 0 }

/-- Witness for claim6_wall_bounce: the left-margin crossing with
decayed velocity -50 ends clamped at 15 with velocity +35. -/
theorem claim6_wall_bounce_witness :
    (ballPhysicsSystem bounceWorld (1 / 60) 800 600).ballX = 15 ∧
    (ballPhysicsSystem bounceWorld (1 / 60) 800 600).ballVelX = 35 := by
  have hdvx : decayedVelX bounceWorld (1 / 60) = -50 := by
    unfold decayedVelX
    rw [rpow_tick]
    norm_num [bounceWorld, baseWorld]
  have hdvy : decayedVelY bounceWorld (1 / 60) = 0 := by
    unfold decayedVelY
    rw [rpow_tick]
    norm_num [bounceWorld, baseWorld]
  have hmx : movedBallX bounceWorld (1 / 60) = 44 / 3 := by
    unfold movedBallX
    rw [hdvx]
    norm_num [bounceWorld, baseWorld]
  have hmy : movedBallY bounceWorld (1 / 60) = 300 := by
    unfold movedBallY
    rw [hdvy]
    norm_num [bounceWorld, baseWorld]
  have hpbx : postBounceX bounceWorld (1 / 60) 800 = (15, 35) := by
    unfold postBounceX bounceAxis
    rw [hmx, hdvx, if_pos (by norm_num : (44 : ℝ) / 3 < 15)]
    rw [abs_of_nonpos (by norm_num : (-50 : ℝ) ≤ 0)]
    norm_num
  have hpby : postBounceY bounceWorld (1 / 60) 600 = (300, 0) := by
    unfold postBounceY bounceAxis
    rw [hmy, hdvy]
    rw [if_neg (by norm_num : ¬ (300 : ℝ) < 15), if_neg (by norm_num : ¬ (300 : ℝ) > 600 - 15)]
  have hsp : ¬ postBounceSpeed bounceWorld (1 / 60) 800 600 < stopThreshold := by
    unfold postBounceSpeed
    rw [hpbx, hpby]
    have h35 : Real.sqrt (((15 : ℝ), (35 : ℝ)).2 ^ 2 + ((300 : ℝ), (0 : ℝ)).2 ^ 2) = 35 :=
      sqrt_eval (by norm_num) (by norm_num)
    rw [h35]
    norm_num [stopThreshold]
  have h := (claim6_wall_bounce bounceWorld (1 / 60) 800 600 rfl (by norm_num)
    (by norm_num) (by norm_num) hsp).1
    (by norm_num [bounceWorld, baseWorld])
    (by rw [hmx]; norm_num)
  refine ⟨h.1, ?_⟩
  rw [h.2.1, hdvx]
  norm_num

/-! ## Claim C5: friction decay and stop -/

/-- One ball-physics tick at the nominal frame time dt = 1/60 on the
800 x 600 field of main.ts. -/
noncomputable def flightStep (w : World) : World :=
  ballPhysicsSystem w (1 / 60) worldWidth worldHeight

/-- Start world of the friction-decay scenario: ball InFlight at the
field centre with velocity (100, 0) and friction 0.98. -/
noncomputable def decayWorld : World :=
  { baseWorld with
    ballState := BallState.InFlight
    ballHeldBy := 0
    ballX := 400
    ballY := 300
    ballVelX := 100
    ballVelY := 0 }

/-- Evaluation of one flight step when the ball stays strictly inside
the walls and at or above the stop threshold: the velocity decays by the
nominal friction factor and the position advances by the decayed
velocity times dt. -/
theorem flightStep_free (w : World)
    (hif : w.ballState = BallState.InFlight)
    (hfr : w.ballFriction = 0.98)
    (hvy : w.ballVelY = 0)
    (hx1 : ¬ w.ballX + w.ballVelX * 0.98 * (1 / 60) < 15)
    (hx2 : ¬ w.ballX + w.ballVelX * 0.98 * (1 / 60) > worldWidth - 15)
    (hy1 : ¬ w.ballY < 15)
    (hy2 : ¬ w.ballY > worldHeight - 15)
    (hvpos : 0 ≤ w.ballVelX * 0.98)
    (hnostop : ¬ w.ballVelX * 0.98 < 10) :
    flightStep w =
      { w with
        ballX := w.ballX + w.ballVelX * 0.98 * (1 / 60)
        ballVelX := w.ballVelX * 0.98
        ballVelY := 0 } := by
  have e3 : decayedVelX w (1 / 60) = w.ballVelX * 0.98 := by
    unfold decayedVelX
    rw [rpow_tick, hfr]
  have e2 : decayedVelY w (1 / 60) = 0 := by
    unfold decayedVelY
    rw [rpow_tick, hvy]
    ring
  have e4 : movedBallX w (1 / 60) = w.ballX + w.ballVelX * 0.98 * (1 / 60) := by
    unfold movedBallX
    rw [e3]
  have e1 : movedBallY w (1 / 60) = w.ballY := by
    unfold movedBallY
    rw [e2]
    ring
  have e5 : postBounceX w (1 / 60) worldWidth
      = (w.ballX + w.ballVelX * 0.98 * (1 / 60), w.ballVelX * 0.98) := by
    unfold postBounceX bounceAxis
    rw [e4, e3, if_neg hx1, if_neg hx2]
  have e6 : postBounceY w (1 / 60) worldHeight = (w.ballY, 0) := by
    unfold postBounceY bounceAxis
    rw [e1, e2, if_neg hy1, if_neg hy2]
  have e7 : postBounceSpeed w (1 / 60) worldWidth worldHeight = w.ballVelX * 0.98 := by
    unfold postBounceSpeed
    rw [e5, e6]
    rw [show ((w.ballX + w.ballVelX * 0.98 * (1 / 60), w.ballVelX * 0.98).2 ^ 2
        + ((w.ballY, (0 : ℝ)).2) ^ 2) = (w.ballVelX * 0.98) ^ 2 by
      simp]
    exact Real.sqrt_sq hvpos
  have hns : ¬ postBounceSpeed w (1 / 60) worldWidth worldHeight < stopThreshold := by
    rw [e7]
    simpa [stopThreshold] using hnostop
  unfold flightStep ballPhysicsSystem
  rw [if_pos hif, if_neg hns, e5, e6]

/-- Evaluation of the stopping flight step: like flightStep_free but the
decayed speed drops below the stop threshold, so the velocity is zeroed
and the state becomes OnGround while the position keeps its integrated
value. -/
theorem flightStep_stop (w : World)
    (hif : w.ballState = BallState.InFlight)
    (hfr : w.ballFriction = 0.98)
    (hvy : w.ballVelY = 0)
    (hx1 : ¬ w.ballX + w.ballVelX * 0.98 * (1 / 60) < 15)
    (hx2 : ¬ w.ballX + w.ballVelX * 0.98 * (1 / 60) > worldWidth - 15)
    (hy1 : ¬ w.ballY < 15)
    (hy2 : ¬ w.ballY > worldHeight - 15)
    (hvpos : 0 ≤ w.ballVelX * 0.98)
    (hstop : w.ballVelX * 0.98 < 10) :
    flightStep w =
      { w with
        ballX := w.ballX + w.ballVelX * 0.98 * (1 / 60)
        ballVelX := 0
        ballVelY := 0
        ballState := BallState.OnGround } := by
  have e3 : decayedVelX w (1 / 60) = w.ballVelX * 0.98 := by
    unfold decayedVelX
    rw [rpow_tick, hfr]
  have e2 : decayedVelY w (1 / 60) = 0 := by
    unfold decayedVelY
    rw [rpow_tick, hvy]
    ring
  have e4 : movedBallX w (1 / 60) = w.ballX + w.ballVelX * 0.98 * (1 / 60) := by
    unfold movedBallX
    rw [e3]
  have e1 : movedBallY w (1 / 60) = w.ballY := by
    unfold movedBallY
    rw [e2]
    ring
  have e5 : postBounceX w (1 / 60) worldWidth
      = (w.ballX + w.ballVelX * 0.98 * (1 / 60), w.ballVelX * 0.98) := by
    unfold postBounceX bounceAxis
    rw [e4, e3, if_neg hx1, if_neg hx2]
  have e6 : postBounceY w (1 / 60) worldHeight = (w.ballY, 0) := by
    unfold postBounceY bounceAxis
    rw [e1, e2, if_neg hy1, if_neg hy2]
  have e7 : postBounceSpeed w (1 / 60) worldWidth worldHeight = w.ballVelX * 0.98 := by
    unfold postBounceSpeed
    rw [e5, e6]
    rw [show ((w.ballX + w.ballVelX * 0.98 * (1 / 60), w.ballVelX * 0.98).2 ^ 2
        + ((w.ballY, (0 : ℝ)).2) ^ 2) = (w.ballVelX * 0.98) ^ 2 by
      simp]
    exact Real.sqrt_sq hvpos
  have hns : postBounceSpeed w (1 / 60) worldWidth worldHeight < stopThreshold := by
    rw [e7]
    simpa [stopThreshold] using hstop
  unfold flightStep ballPhysicsSystem
  rw [if_pos hif, if_pos hns, e5, e6]

/-- Closed form of the decaying flight: as long as the speed has stayed
at or above the stop threshold, after n steps the ball is still InFlight
with velocity (100 * 0.98 ^ n, 0) at x = 400 + 245/3 * (1 - 0.98 ^ n). -/
theorem decay_invariant : ∀ n : ℕ, 10 ≤ 100 * (0.98 : ℝ) ^ n →
    flightStep^[n] decayWorld =
      { decayWorld with
        ballVelX := 100 * (0.98 : ℝ) ^ n
        ballX := 400 + 245 / 3 * (1 - (0.98 : ℝ) ^ n) } := by
  intro n
  induction n with
  | zero =>
      intro _
      simp [decayWorld, baseWorld]
  | succ n ih =>
      intro h
      have hqn : (0 : ℝ) < (0.98 : ℝ) ^ n := pow_pos (by norm_num) n
      have hqsucc : (0 : ℝ) < (0.98 : ℝ) ^ (n + 1) := pow_pos (by norm_num) _
      have hq1 : ((0.98 : ℝ)) ^ (n + 1) ≤ (0.98 : ℝ) ^ n :=
        pow_le_pow_of_le_one (by norm_num) (by norm_num) (Nat.le_succ n)
      have hqle : ((0.98 : ℝ)) ^ n ≤ 1 := pow_le_one₀ (by norm_num) (by norm_num)
      have h' : 10 ≤ 100 * (0.98 : ℝ) ^ n := by nlinarith
      have hsucc : (0.98 : ℝ) ^ (n + 1) = (0.98 : ℝ) ^ n * 0.98 := pow_succ _ _
      rw [Function.iterate_succ_apply', ih h']
      rw [flightStep_free _ rfl rfl rfl
        (by
          simp only
          nlinarith)
        (by
          simp only [worldWidth]
          nlinarith)
        (by norm_num [decayWorld, baseWorld])
        (by norm_num [decayWorld, baseWorld, worldHeight])
        (by nlinarith)
        (by simp only; nlinarith)]
      simp [decayWorld, baseWorld]
      constructor
      · nlinarith
      · nlinarith

/-- After the 114th step the decayed speed 100 * 0.98 ^ 114 has dropped
below the stop threshold: the velocity is zeroed and the ball lands. -/
theorem decay_stops :
    flightStep^[114] decayWorld =
      { decayWorld with
        ballVelX := 0
        ballVelY := 0
        ballState := BallState.OnGround
        ballX := 400 + 245 / 3 * (1 - (0.98 : ℝ) ^ 114) } := by
  have h113 : (10 : ℝ) ≤ 100 * (0.98 : ℝ) ^ 113 := by norm_num
  have h114 : 100 * (0.98 : ℝ) ^ 114 < 10 := by norm_num
  have hqn : (0 : ℝ) < (0.98 : ℝ) ^ 113 := pow_pos (by norm_num) _
  have hqle : ((0.98 : ℝ)) ^ 113 ≤ 1 := pow_le_one₀ (by norm_num) (by norm_num)
  have hsucc : (0.98 : ℝ) ^ (113 + 1) = (0.98 : ℝ) ^ 113 * 0.98 := pow_succ _ _
  have e : flightStep^[114] decayWorld = flightStep (flightStep^[113] decayWorld) :=
    Function.iterate_succ_apply' _ _ _
  rw [e, decay_invariant 113 h113]
  rw [flightStep_stop _ rfl rfl rfl
    (by
      simp only
      nlinarith)
    (by
      simp only [worldWidth]
      nlinarith)
    (by norm_num [decayWorld, baseWorld])
    (by norm_num [decayWorld, baseWorld, worldHeight])
    (by nlinarith)
    (by simp only; nlinarith)]
  simp [decayWorld, baseWorld]
  nlinarith

/-- C5: from an InFlight ball with velocity (100, 0), friction 0.98 and
a mid-field start, at dt = 1/60 one physics tick gives velocity exactly
(98, 0); the ball stays InFlight for 113 further ticks with strictly
decreasing speed; on the 114th tick the decayed speed crosses the stop
threshold, the velocity becomes exactly (0, 0), the state becomes
OnGround, and every later tick leaves the world unchanged. -/
theorem claim5_friction_decay :
    (flightStep decayWorld).ballVelX = 98 ∧
    (flightStep decayWorld).ballVelY = 0 ∧
    (∀ n : ℕ, n < 114 → (flightStep^[n] decayWorld).ballState = BallState.InFlight) ∧
    (∀ n : ℕ, n < 114 →
      ballSpeed (flightStep^[n + 1] decayWorld) < ballSpeed (flightStep^[n] decayWorld)) ∧
    (flightStep^[114] decayWorld).ballVelX = 0 ∧
    (flightStep^[114] decayWorld).ballVelY = 0 ∧
    (flightStep^[114] decayWorld).ballState = BallState.OnGround ∧
    (∀ m : ℕ, flightStep^[m] (flightStep^[114] decayWorld) = flightStep^[114] decayWorld) := by
  have h113 : ∀ n : ℕ, n ≤ 113 → (10 : ℝ) ≤ 100 * (0.98 : ℝ) ^ n := by
    intro n hn
    have hbase : (10 : ℝ) ≤ 100 * (0.98 : ℝ) ^ 113 := by norm_num
    have hmono : ((0.98 : ℝ)) ^ 113 ≤ (0.98 : ℝ) ^ n :=
      pow_le_pow_of_le_one (by norm_num) (by norm_num) hn
    nlinarith
  have hspeed : ∀ n : ℕ, n ≤ 113 →
      ballSpeed (flightStep^[n] decayWorld) = 100 * (0.98 : ℝ) ^ n := by
    intro n hn
    rw [decay_invariant n (h113 n hn)]
    unfold ballSpeed
    dsimp only [decayWorld, baseWorld]
    rw [show ((100 * (0.98 : ℝ) ^ n) ^ 2 + ((0 : ℝ)) ^ 2) = (100 * (0.98 : ℝ) ^ n) ^ 2 by
      norm_num]
    exact Real.sqrt_sq (by positivity)
  refine ⟨?_, ?_, ?_, ?_, ?_, ?_, ?_, ?_⟩
  · show (flightStep^[1] decayWorld).ballVelX = 98
    rw [decay_invariant 1 (by norm_num)]
    dsimp only [decayWorld, baseWorld]
    norm_num
  · show (flightStep^[1] decayWorld).ballVelY = 0
    rw [decay_invariant 1 (by norm_num)]
    rfl
  · intro n hn
    rw [decay_invariant n (h113 n (by omega))]
    rfl
  · intro n hn
    by_cases h : n = 113
    · subst h
      rw [hspeed 113 le_rfl]
      have hz : ballSpeed (flightStep^[113 + 1] decayWorld) = 0 := by
        show ballSpeed (flightStep^[114] decayWorld) = 0
        rw [decay_stops]
        unfold ballSpeed
        dsimp only [decayWorld, baseWorld]
        rw [show ((0 : ℝ) ^ 2 + (0 : ℝ) ^ 2) = 0 by norm_num, Real.sqrt_zero]
      rw [hz]
      positivity
    · have hn' : n + 1 ≤ 113 := by omega
      rw [hspeed (n + 1) hn', hspeed n (by omega), pow_succ]
      have hqn : (0 : ℝ) < (0.98 : ℝ) ^ n := pow_pos (by norm_num) _
      nlinarith
  · rw [decay_stops]
  · rw [decay_stops]
  · rw [decay_stops]
  · intro m
    refine Function.iterate_fixed ?_ m
    rw [decay_stops]
    unfold flightStep
    exact ballPhysicsSystem_skip _ _ _ _ (by simp)

end FetchTs
